import Mathlib

/-!
Shallow embedding of the loan explanation-and-recommendation core
(backend/core/predictor.py, backend/core/explainer.py, backend/core/recommender.py).

Numeric feature values and attribution (SHAP) values are modelled as
rationals.  Python dicts keyed by feature name are modelled as
insertion-ordered association lists `List (String × ℚ)`; the feature
vector handed to the core (whose two categorical columns arrive already
label-encoded to numbers by the object encoder) is modelled as a total
valuation `String → ℚ`.  Python's stable `sorted` is modelled by
`List.insertionSort`, which is likewise a stable sort for the total
transitive comparison relations used here.
-/

namespace LoanSense

/-- ModelLoader.feature_names: the 11 configured features, in declaration
order (model_loader.py lines 14-18). -/
def feature_names : List String :=
  ["no_of_dependents", "education", "self_employed", "income_annum",
   "loan_amount", "loan_term", "cibil_score", "residential_assets_value",
   "commercial_assets_value", "luxury_assets_value", "bank_asset_value"]

/-- A preprocessed single-row feature vector: feature name to numeric value. -/
abbrev Data := String → ℚ

/-- Prediction label after target-encoder inverse transform and strip. -/
inductive Label where
  | Approved
  | Rejected
deriving DecidableEq

/-- One entry of the top_contributing_features list
(explainer.py `_get_top_features`). -/
structure RankedFeature where
  rank : Nat
  feature : String
  shap_value : ℚ
  feature_value : ℚ
  impact : String
  importance : ℚ
deriving DecidableEq

/-- The impact description strings of explainer.py `_get_feature_impact`,
with the embedded rounded magnitude carried explicitly. -/
inductive ImpactText where
  | increases (x : ℚ)
  | decreases (x : ℚ)
deriving DecidableEq

/-- The recommendation text templates of recommender.py, with the numbers
interpolated into the f-strings carried explicitly. -/
inductive RecText where
  | congrats
  | improveCibil (current : ℚ)
  | increaseIncome (current target : ℚ)
  | reduceLoan (current target : ℚ)
  | reduceTerm (current : ℚ)
  | increaseBankAssets (current target : ℚ)
  | increaseResidentialAssets (current target : ℚ)
deriving DecidableEq

/-- One recommendation dict.  The Approved-path congratulatory dict carries
no current_value and no impact key, so those two fields are `Option`s. -/
structure Recommendation where
  priority : String
  feature : String
  current_value : Option ℚ
  recommendation : RecText
  impact : Option ℚ
  actionable : Bool
deriving DecidableEq

/-- The result dict of explainer.py `explain_prediction`. -/
structure Explanation where
  prediction : Label
  probability : ℚ
  shap_values : List (String × ℚ)
  top_contributing_features : List RankedFeature
  feature_impact : List (String × ImpactText)
deriving DecidableEq

/-- The result dict of recommender.py `generate_recommendations`. -/
structure RecommendationSet where
  current_prediction : Label
  recommendations : List Recommendation
  potential_improvements : List (String × ℚ)
deriving DecidableEq

/-! ## Predictor (predictor.py) -/

/-- LoanPredictor._get_confidence_level (predictor.py lines 78-85). -/
def _get_confidence_level (p : ℚ) : String :=
  if p ≥ 8/10 then "High"
  else if p ≥ 6/10 then "Medium"
  else "Low"

/-- The required-column check of LoanPredictor.preprocess_data
(predictor.py lines 22-25): the loop raises on the first required column
absent from the input frame's columns. -/
def checkRequiredColumns (cols : List String) : Except String Unit :=
  match feature_names.find? (fun c => !(cols.contains c)) with
  | some c => .error ("Missing required column: " ++ c)
  | none => .ok ()

/-- LoanPredictor.preprocess_data (predictor.py lines 14-34): check the
required columns, then reorder to the training order.  The object-encoder
application on the two categorical columns is folded into the numeric
valuation `data`. -/
def preprocess_data (cols : List String) (data : Data) :
    Except String (List (String × ℚ)) :=
  match checkRequiredColumns cols with
  | .error e => .error e
  | .ok _ => .ok (feature_names.map (fun f => (f, data f)))

/-- LoanPredictor.predict_single (predictor.py lines 36-64), parametrised
over the classifier oracle: preprocessing runs first, and the oracle is
consulted only when preprocessing succeeds. -/
def predict_single (oracle : Data → Label × ℚ) (cols : List String)
    (data : Data) : Except String (Label × ℚ × String) :=
  match preprocess_data cols data with
  | .error e => .error e
  | .ok _ =>
    let lp := oracle data
    .ok (lp.1, lp.2, _get_confidence_level lp.2)

/-! ## Attribution normalization (explainer.py lines 47-76) -/

/-- One element of the binary-classification list format: either still
multi-sample (ndim greater than 1) or already a flat value row. -/
inductive ShapElem where
  | nested (a : List (List ℚ))
  | flat (a : List ℚ)
deriving DecidableEq

/-- The raw attribution tensor, in one of the four shapes the dispatch in
explain_prediction handles. -/
inductive RawShap where
  | dim3 (a : List (List (List ℚ)))
  | dim2 (a : List (List ℚ))
  | dim1 (a : List ℚ)
  | pair (c0 c1 : ShapElem)
deriving DecidableEq

/-- Shape dispatch of explain_prediction (explainer.py lines 48-67):
3-D selects `[0, :, 0]` (sample 0, class 0), 2-D selects `[0, :]`,
1-D is used as-is, and the 2-element class list selects class index 0,
unwrapping to sample 0 when that element is still multi-sample.
`none` models the IndexError numpy raises when the selected index does
not exist. -/
def resolveShap : RawShap → Option (List ℚ)
  | .dim3 a => a.head? >>= fun rows => rows.mapM (fun r => r.head?)
  | .dim2 a => a.head?
  | .dim1 a => some a
  | .pair c0 _ =>
    match c0 with
    | .nested a => a.head?
    | .flat a => some a

/-- The shap_dict comprehension of explain_prediction (explainer.py lines
73-76): index i runs over `range(len(feature_names))`, so the build fails
(IndexError) only when the resolved row is shorter than the feature list,
and silently ignores any extra trailing values. -/
def buildShapDict (names : List String) (vals : List ℚ) :
    Except String (List (String × ℚ)) :=
  if names.length ≤ vals.length then .ok (names.zip vals)
  else .error "IndexError: index out of range"

/-- Shape dispatch followed by the dict build: the attribution
normalization step of explain_prediction. -/
def normalizeShap (raw : RawShap) (names : List String) :
    Except String (List (String × ℚ)) :=
  match resolveShap raw with
  | none => .error "IndexError: index out of range"
  | some vals => buildShapDict names vals

/-! ## Explainer ranking and impact text (explainer.py lines 96-125) -/

/-- Comparison used by `sorted(shap_values.items(), key=lambda x: abs(x[1]),
reverse=True)`: x may stay before y when its absolute value is at least
y's. -/
def absDescRel (x y : String × ℚ) : Prop := |y.2| ≤ |x.2|

instance : DecidableRel absDescRel := fun x y =>
  inferInstanceAs (Decidable (|y.2| ≤ |x.2|))

instance : IsTotal (String × ℚ) absDescRel :=
  ⟨fun a b => le_total |b.2| |a.2|⟩

instance : IsTrans (String × ℚ) absDescRel :=
  ⟨fun _ _ _ h1 h2 => le_trans h2 h1⟩

/-- Python's stable descending-by-absolute-value sort of the attribution
items, modelled by the stable `List.insertionSort`. -/
def sortByAbsDesc (m : List (String × ℚ)) : List (String × ℚ) :=
  List.insertionSort absDescRel m

/-- The enumerate loop of `_get_top_features` (explainer.py lines 101-110),
building one RankedFeature per retained item, rank = index + 1. -/
def rankFeatures (row : Data) : Nat → List (String × ℚ) → List RankedFeature
  | _, [] => []
  | i, fs :: rest =>
    { rank := i + 1
      feature := fs.1
      shap_value := fs.2
      feature_value := row fs.1
      impact := if fs.2 > 0 then "Positive" else "Negative"
      importance := |fs.2| } :: rankFeatures row (i + 1) rest

/-- LoanExplainer._get_top_features (explainer.py lines 96-112) with the
default top_n = 5. -/
def _get_top_features (m : List (String × ℚ)) (row : Data) :
    List RankedFeature :=
  rankFeatures row 0 ((sortByAbsDesc m).take 5)

/-- Rounding to 3 decimal places, as the `:.3f` format applies to the
absolute attribution magnitude. -/
def round3 (q : ℚ) : ℚ := ((round (1000 * q) : ℤ) : ℚ) / 1000

/-- LoanExplainer._get_feature_impact (explainer.py lines 114-125). -/
def _get_feature_impact (m : List (String × ℚ)) :
    List (String × ImpactText) :=
  m.filterMap (fun fs =>
    if |fs.2| > 1/10 then
      some (fs.1,
        if fs.2 > 0 then ImpactText.increases (round3 |fs.2|)
        else ImpactText.decreases (round3 |fs.2|))
    else none)

/-- LoanExplainer.explain_prediction (explainer.py lines 28-94),
parametrised over the already-computed prediction result and raw
attribution tensor. -/
def explain_prediction (pred : Label) (prob : ℚ) (raw : RawShap)
    (row : Data) : Except String Explanation :=
  match normalizeShap raw feature_names with
  | .error e => .error e
  | .ok shap_dict =>
    .ok { prediction := pred
          probability := prob
          shap_values := shap_dict
          top_contributing_features := _get_top_features shap_dict row
          feature_impact := _get_feature_impact shap_dict }

/-! ## Recommender (recommender.py) -/

/-- Comparison used by `negative_features.sort(key=lambda x: x[1])`:
ascending by attribution value, most negative first. -/
def shapAscRel (x y : String × ℚ) : Prop := x.2 ≤ y.2

instance : DecidableRel shapAscRel := fun x y =>
  inferInstanceAs (Decidable (x.2 ≤ y.2))

instance : IsTotal (String × ℚ) shapAscRel := ⟨fun a b => le_total a.2 b.2⟩

instance : IsTrans (String × ℚ) shapAscRel :=
  ⟨fun _ _ _ h1 h2 => le_trans h1 h2⟩

/-- The if/elif rule ladder inside the loop of
`_generate_specific_recommendations` (recommender.py lines 62-130),
for one (feature, shap value) pair. -/
def ruleFor (data : Data) (feature : String) (shap_val : ℚ) :
    Option Recommendation :=
  if feature = "cibil_score" then
    if data feature < 550 then
      some { priority := "High"
             feature := feature
             current_value := some (data feature)
             recommendation := RecText.improveCibil (data feature)
             impact := some |shap_val|
             actionable := true }
    else none
  else if feature = "income_annum" then
    some { priority := "Medium"
           feature := feature
           current_value := some (data feature)
           recommendation :=
             RecText.increaseIncome (data feature) (data feature * (12/10))
           impact := some |shap_val|
           actionable := true }
  else if feature = "loan_amount" then
    if data feature > data "income_annum" * 3 then
      some { priority := "High"
             feature := feature
             current_value := some (data feature)
             recommendation :=
               RecText.reduceLoan (data feature) (data "income_annum" * 3)
             impact := some |shap_val|
             actionable := true }
    else none
  else if feature = "loan_term" then
    if data feature > 15 then
      some { priority := "Medium"
             feature := feature
             current_value := some (data feature)
             recommendation := RecText.reduceTerm (data feature)
             impact := some |shap_val|
             actionable := true }
    else none
  else if feature = "bank_asset_value" then
    some { priority := "Medium"
           feature := feature
           current_value := some (data feature)
           recommendation :=
             RecText.increaseBankAssets (data feature) (data feature * (3/2))
           impact := some |shap_val|
           actionable := true }
  else if feature = "residential_assets_value" then
    some { priority := "Low"
           feature := feature
           current_value := some (data feature)
           recommendation :=
             RecText.increaseResidentialAssets (data feature)
               (data feature * (13/10))
           impact := some |shap_val|
           actionable := false }
  else none

/-- The negative-feature selection of `_generate_specific_recommendations`
(recommender.py lines 58-60): keep top-feature entries with shap value
below zero, then stable-sort ascending by shap value. -/
def sortedNegatives (top_features : List RankedFeature) :
    List (String × ℚ) :=
  List.insertionSort shapAscRel
    (top_features.filterMap (fun f =>
      if f.shap_value < 0 then some (f.feature, f.shap_value) else none))

/-- LoanRecommender._generate_specific_recommendations (recommender.py
lines 54-133).  The shap_values argument is received but unused, as in the
source. -/
def _generate_specific_recommendations (data : Data)
    (shap_values : List (String × ℚ)) (top_features : List RankedFeature) :
    List Recommendation :=
  let _ := shap_values
  ((sortedNegatives top_features).take 5).filterMap
    (fun fs => ruleFor data fs.1 fs.2)

/-- The per-feature improvement body of `_calculate_potential_improvements`
(recommender.py lines 140-159), for one (feature, shap value) pair. -/
def improvementFor (data : Data) (feature : String) (s : ℚ) : Option ℚ :=
  if s < -(1/20) then
    if feature = "cibil_score" then
      if data feature < 750 then
        some (|s| * ((750 - data feature) / 900))
      else none
    else if feature = "loan_amount" then
      if data feature > data "income_annum" * 3 then
        some (|s| * ((data feature - data "income_annum" * 3) / data feature))
      else none
    else if feature = "income_annum" then
      some (|s| * (2/10))
    else none
  else none

/-- LoanRecommender._calculate_potential_improvements (recommender.py
lines 135-161): iterate over the whole attribution map. -/
def _calculate_potential_improvements (data : Data)
    (m : List (String × ℚ)) : List (String × ℚ) :=
  m.filterMap (fun fs => (improvementFor data fs.1 fs.2).map (fun d => (fs.1, d)))

/-- The single congratulatory dict of the Approved path (recommender.py
lines 24-29): it carries only priority, feature, recommendation and
actionable. -/
def congratsRecommendation : Recommendation :=
  { priority := "High"
    feature := "loan_approved"
    current_value := none
    recommendation := RecText.congrats
    impact := none
    actionable := true }

/-- LoanRecommender.generate_recommendations (recommender.py lines 13-48),
given the already-computed explanation. -/
def generate_recommendations (data : Data) (explanation : Explanation) :
    RecommendationSet :=
  if explanation.prediction = Label.Approved then
    { current_prediction := explanation.prediction
      recommendations := [congratsRecommendation]
      potential_improvements := [] }
  else
    { current_prediction := explanation.prediction
      recommendations :=
        _generate_specific_recommendations data explanation.shap_values
          explanation.top_contributing_features
      potential_improvements :=
        _calculate_potential_improvements data explanation.shap_values }

/-- One row of the spec's declarative rule table: a trigger predicate over
the current data, a recommendation template, a priority and an actionable
flag. -/
structure SpecRule where
  trigger : Data → Bool
  template : Data → RecText
  priority : String
  actionable : Bool

/-- The fixed per-feature rule table of spec section 4.3, written as a
declarative table (feature, trigger, template, priority, actionable);
features not listed produce no recommendation.  This definition follows
the spec's words and is compared against the source's if/elif ladder. -/
def specRuleTable : List (String × SpecRule) :=
  [("cibil_score",
     { trigger := fun d => d "cibil_score" < 550
       template := fun d => RecText.improveCibil (d "cibil_score")
       priority := "High"
       actionable := true }),
   ("income_annum",
     { trigger := fun _ => true
       template := fun d =>
         RecText.increaseIncome (d "income_annum") (d "income_annum" * (12/10))
       priority := "Medium"
       actionable := true }),
   ("loan_amount",
     { trigger := fun d => d "loan_amount" > d "income_annum" * 3
       template := fun d =>
         RecText.reduceLoan (d "loan_amount") (d "income_annum" * 3)
       priority := "High"
       actionable := true }),
   ("loan_term",
     { trigger := fun d => d "loan_term" > 15
       template := fun d => RecText.reduceTerm (d "loan_term")
       priority := "Medium"
       actionable := true }),
   ("bank_asset_value",
     { trigger := fun _ => true
       template := fun d =>
         RecText.increaseBankAssets (d "bank_asset_value")
           (d "bank_asset_value" * (3/2))
       priority := "Medium"
       actionable := true }),
   ("residential_assets_value",
     { trigger := fun _ => true
       template := fun d =>
         RecText.increaseResidentialAssets (d "residential_assets_value")
           (d "residential_assets_value" * (13/10))
       priority := "Low"
       actionable := false })]

/-- Uniform evaluation of the declarative rule table, per spec section 4.3:
take the negative entries of the top-5 ranked list sorted most negative
first, look each feature up in the table, check its trigger, and emit a
recommendation carrying the feature's current value and impact =
absolute attribution. -/
def recommendationsSpec (data : Data) (top_features : List RankedFeature) :
    List Recommendation :=
  (sortedNegatives top_features).filterMap (fun fs =>
    match specRuleTable.lookup fs.1 with
    | none => none
    | some rule =>
      if rule.trigger data then
        some { priority := rule.priority
               feature := fs.1
               current_value := some (data fs.1)
               recommendation := rule.template data
               impact := some |fs.2|
               actionable := rule.actionable }
      else none)

/-- Sub-sequence of attribution items whose absolute value equals k: used to
state that a sort is stable (equal-key items keep their original relative
order). -/
def keyFilter (k : ℚ) (l : List (String × ℚ)) : List (String × ℚ) :=
  l.filter (fun x => decide (|x.2| = k))

/-! ## Concrete inputs used by the witness theorems -/

/-- A feature valuation that is constantly zero. -/
def zeroData : Data := fun _ => 0

/-- A feature valuation with every feature at 500. -/
def cibil500Data : Data := fun _ => 500

/-- A feature valuation with every feature at 600. -/
def cibil600Data : Data := fun _ => 600

/-- An Approved explanation with empty attribution content. -/
def approvedExplanation : Explanation :=
  { prediction := Label.Approved
    probability := 1
    shap_values := []
    top_contributing_features := []
    feature_impact := [] }

/-- Eleven attribution values, one per configured feature. -/
def elevenValues : List ℚ := [1, 2, 3, 4, 5, 6, 7, 8, 9, 10, 11]

/-- Twelve attribution values: one more than the configured features. -/
def twelveValues : List ℚ := [1, 2, 3, 4, 5, 6, 7, 8, 9, 10, 11, 12]

/-- An attribution map whose only significantly negative entry is
income_annum. -/
def incomeNegShap : List (String × ℚ) := [("income_annum", -1)]

/-- A single top-contributing entry: cibil_score with attribution -1. -/
def cibilTop : List RankedFeature :=
  [{ rank := 1
     feature := "cibil_score"
     shap_value := -1
     feature_value := 500
     impact := "Negative"
     importance := 1 }]

/-- The recommendation the rule ladder emits for `cibilTop` over
`cibil500Data`. -/
def cibilRec : Recommendation :=
  { priority := "High"
    feature := "cibil_score"
    current_value := some 500
    recommendation := RecText.improveCibil 500
    impact := some 1
    actionable := true }

/-- A classifier oracle that always approves. -/
def approveOracle : Data → Label × ℚ := fun _ => (Label.Approved, 1)

/-- A classifier oracle that always rejects. -/
def rejectOracle : Data → Label × ℚ := fun _ => (Label.Rejected, 0)

/-! ## Theorems -/

/-- C1: whenever the classifier predicts Approved, generate_recommendations
returns exactly one congratulatory High-priority actionable recommendation
tagged loan_approved and an empty improvement map, independently of the
input data and of all attribution content. -/
theorem C1_approved_short_circuit (data : Data) (expl : Explanation)
    (h : expl.prediction = Label.Approved) :
    generate_recommendations data expl =
      { current_prediction := Label.Approved
        recommendations := [congratsRecommendation]
        potential_improvements := [] } ∧
    (generate_recommendations data expl).recommendations.length = 1 ∧
    (generate_recommendations data expl).potential_improvements = [] ∧
    congratsRecommendation.priority = "High" ∧
    congratsRecommendation.feature = "loan_approved" ∧
    congratsRecommendation.actionable = true := by
  simp [generate_recommendations, h, congratsRecommendation]

/-- Witness for C1 at a concrete Approved explanation. -/
theorem C1_witness :
    approvedExplanation.prediction = Label.Approved ∧
    (generate_recommendations zeroData approvedExplanation =
        { current_prediction := Label.Approved
          recommendations := [congratsRecommendation]
          potential_improvements := [] } ∧
      (generate_recommendations zeroData approvedExplanation).recommendations.length = 1 ∧
      (generate_recommendations zeroData approvedExplanation).potential_improvements = [] ∧
      congratsRecommendation.priority = "High" ∧
      congratsRecommendation.feature = "loan_approved" ∧
      congratsRecommendation.actionable = true) :=
  ⟨rfl, C1_approved_short_circuit zeroData approvedExplanation rfl⟩

/-- C6 counterexample: a 1-D raw tensor with 12 values resolves to 12
values, which differs from the 11 configured features, yet normalization
succeeds (the dict comprehension only reads the first 11 indices), so the
claim that a count mismatch always fails is false. -/
theorem C6_counterexample :
    resolveShap (RawShap.dim1 twelveValues) = some twelveValues ∧
    twelveValues.length ≠ feature_names.length ∧
    normalizeShap (RawShap.dim1 twelveValues) feature_names =
      Except.ok (feature_names.zip twelveValues) :=
  ⟨rfl, by decide, rfl⟩

/-- C6 (amended): normalization fails when shape dispatch cannot resolve a
row or the resolved row is shorter than the configured feature list; when
the row has at least as many values it succeeds, pairing the features with
the first values, and an exact count yields exactly one signed value per
feature (11 entries, keys equal to the feature list). -/
theorem C6_shape_normalization (raw : RawShap) :
    (∀ vals, resolveShap raw = some vals →
      (vals.length < feature_names.length →
        normalizeShap raw feature_names =
          Except.error "IndexError: index out of range") ∧
      (feature_names.length ≤ vals.length →
        normalizeShap raw feature_names = Except.ok (feature_names.zip vals) ∧
        (feature_names.zip vals).map Prod.fst = feature_names ∧
        (feature_names.zip vals).length = feature_names.length)) ∧
    (resolveShap raw = none →
      normalizeShap raw feature_names =
        Except.error "IndexError: index out of range") := by
  constructor
  · intro vals hres
    constructor
    · intro hlt
      simp [normalizeShap, hres, buildShapDict, Nat.not_le.mpr hlt]
    · intro hle
      refine ⟨?_, List.map_fst_zip _ _ hle, ?_⟩
      · simp [normalizeShap, hres, buildShapDict, hle]
      · simpa [List.length_zip] using Nat.min_eq_left hle
  · intro hres
    simp [normalizeShap, hres]

/-- Witness for C6 at a 1-D tensor carrying exactly one value per feature. -/
theorem C6_witness :
    feature_names.length ≤ elevenValues.length ∧
    (normalizeShap (RawShap.dim1 elevenValues) feature_names =
        Except.ok (feature_names.zip elevenValues) ∧
      (feature_names.zip elevenValues).map Prod.fst = feature_names ∧
      (feature_names.zip elevenValues).length = feature_names.length) :=
  ⟨by decide,
    ((C6_shape_normalization (RawShap.dim1 elevenValues)).1 elevenValues rfl).2
      (by decide)⟩

/-- Inserting an item leaves every equal-absolute-value sub-sequence intact
apart from prepending the item to its own key class: the elements the
insertion skips all have strictly larger absolute value. -/
theorem keyFilter_orderedInsert (a : String × ℚ) (l : List (String × ℚ))
    (k : ℚ) :
    keyFilter k (List.orderedInsert absDescRel a l) =
      if |a.2| = k then a :: keyFilter k l else keyFilter k l := by
  induction l with
  | nil =>
    by_cases hk : |a.2| = k <;>
      simp [keyFilter, List.orderedInsert, List.filter, hk]
  | cons b t ih =>
    simp only [List.orderedInsert]
    by_cases hab : absDescRel a b
    · rw [if_pos hab]
      by_cases hk : |a.2| = k <;> simp [keyFilter, List.filter_cons, hk]
    · rw [if_neg hab]
      have halt : |a.2| < |b.2| := lt_of_not_le hab
      by_cases hk : |a.2| = k
      · have hbk : ¬(|b.2| = k) := fun hb => absurd (hb.trans hk.symm) (ne_of_gt halt)
        simp [keyFilter, List.filter_cons, hbk, hk] at ih ⊢
        rw [ih]
      · by_cases hb : |b.2| = k <;>
          simp [keyFilter, List.filter_cons, hb, hk] at ih ⊢ <;> rw [ih]

/-- Stability of the descending-by-absolute-value sort: restricted to any
fixed absolute value, the sorted list equals the input list, so ties keep
the original declaration order. -/
theorem keyFilter_sortByAbsDesc (m : List (String × ℚ)) (k : ℚ) :
    keyFilter k (sortByAbsDesc m) = keyFilter k m := by
  induction m with
  | nil => rfl
  | cons a t ih =>
    show keyFilter k (List.orderedInsert absDescRel a
      (List.insertionSort absDescRel t)) = _
    rw [keyFilter_orderedInsert]
    simp only [keyFilter, sortByAbsDesc] at ih
    by_cases hk : |a.2| = k <;>
      simp [keyFilter, List.filter_cons, hk, ih]

/-- The enumerate loop only decorates: projecting each RankedFeature back
to its (feature, attribution) pair recovers the traversed list. -/
theorem rankFeatures_map_pair (row : Data) (i : Nat)
    (l : List (String × ℚ)) :
    (rankFeatures row i l).map (fun f => (f.feature, f.shap_value)) = l := by
  induction l generalizing i with
  | nil => rfl
  | cons a t ih => simp [rankFeatures, ih]

/-- The enumerate loop assigns 1-based ranks in list order. -/
theorem rankFeatures_map_rank (row : Data) (i : Nat)
    (l : List (String × ℚ)) :
    (rankFeatures row i l).map RankedFeature.rank =
      List.range' (i + 1) l.length := by
  induction l generalizing i with
  | nil => rfl
  | cons a t ih => simp [rankFeatures, List.range'_succ, ih]

/-- Each produced importance is the absolute attribution of its item. -/
theorem rankFeatures_map_importance (row : Data) (i : Nat)
    (l : List (String × ℚ)) :
    (rankFeatures row i l).map RankedFeature.importance =
      l.map (fun x => |x.2|) := by
  induction l generalizing i with
  | nil => rfl
  | cons a t ih => simp [rankFeatures, ih]

/-- The enumerate loop preserves length. -/
theorem rankFeatures_length (row : Data) (i : Nat)
    (l : List (String × ℚ)) :
    (rankFeatures row i l).length = l.length := by
  induction l generalizing i with
  | nil => rfl
  | cons a t ih => simp [rankFeatures, ih]

/-- Sortedness transports through the enumerate loop to the importance
field. -/
theorem rankFeatures_pairwise (row : Data) (i : Nat)
    (l : List (String × ℚ)) (h : List.Pairwise absDescRel l) :
    List.Pairwise (fun a b : RankedFeature => b.importance ≤ a.importance)
      (rankFeatures row i l) := by
  have h1 : List.Pairwise (fun a b : ℚ => b ≤ a)
      ((rankFeatures row i l).map RankedFeature.importance) := by
    rw [rankFeatures_map_importance]
    exact List.pairwise_map.mpr (h.imp (fun hxy => hxy))
  exact List.pairwise_map.mp h1

/-- C4: the top-contributing list is exactly the first 5 items of the
stable descending-by-absolute-attribution sort of the attribution map:
the sort is a permutation of the map, adjacent importances are
non-increasing, equal-absolute-value ties keep the original declaration
order, ranks are assigned 1-based in list order, and each importance is
the absolute attribution of its item. -/
theorem C4_top_features_ranking (m : List (String × ℚ)) (row : Data) :
    ((_get_top_features m row).map (fun f => (f.feature, f.shap_value)) =
      (sortByAbsDesc m).take 5) ∧
    List.Pairwise (fun a b : RankedFeature => b.importance ≤ a.importance)
      (_get_top_features m row) ∧
    (sortByAbsDesc m).Perm m ∧
    (∀ k : ℚ, keyFilter k (sortByAbsDesc m) = keyFilter k m) ∧
    ((_get_top_features m row).map RankedFeature.rank =
      List.range' 1 (_get_top_features m row).length) ∧
    ((_get_top_features m row).map RankedFeature.importance =
      ((sortByAbsDesc m).take 5).map (fun x => |x.2|)) := by
  have hsorted : List.Pairwise absDescRel ((sortByAbsDesc m).take 5) :=
    List.Pairwise.sublist (List.take_sublist 5 _)
      (List.sorted_insertionSort absDescRel m)
  refine ⟨rankFeatures_map_pair row 0 _, rankFeatures_pairwise row 0 _ hsorted,
    List.perm_insertionSort absDescRel m, keyFilter_sortByAbsDesc m, ?_, ?_⟩
  · rw [_get_top_features, rankFeatures_map_rank, rankFeatures_length]
  · exact rankFeatures_map_importance row 0 _

/-- C7: over probabilities in the unit interval, the confidence bucket is
High exactly when p is at least 0.8, Medium exactly when p is in
[0.6, 0.8), and Low exactly when p is below 0.6. -/
theorem C7_confidence_levels (p : ℚ) (h0 : 0 ≤ p) (h1 : p ≤ 1) :
    (_get_confidence_level p = "High" ↔ 8/10 ≤ p) ∧
    (_get_confidence_level p = "Medium" ↔ 6/10 ≤ p ∧ p < 8/10) ∧
    (_get_confidence_level p = "Low" ↔ p < 6/10) := by
  unfold _get_confidence_level
  split_ifs with hA hB
  · simp +decide only [iff_true, true_iff, false_iff]
    refine ⟨hA, fun hc => absurd hA (not_le.mpr hc.2), not_lt.mpr (le_trans (by norm_num) hA)⟩
  · simp +decide only [iff_true, true_iff, false_iff]
    exact ⟨not_le.mpr (lt_of_not_le hA), ⟨hB, lt_of_not_le hA⟩, not_lt.mpr hB⟩
  · simp +decide only [iff_true, true_iff, false_iff]
    refine ⟨not_le.mpr (lt_of_not_le hA), fun hc => absurd hc.1 hB, lt_of_not_le hB⟩

/-- Witness for C7 at probability 1. -/
theorem C7_witness :
    (0:ℚ) ≤ 1 ∧ (1:ℚ) ≤ 1 ∧
    ((_get_confidence_level 1 = "High" ↔ 8/10 ≤ (1:ℚ)) ∧
      (_get_confidence_level 1 = "Medium" ↔ 6/10 ≤ (1:ℚ) ∧ (1:ℚ) < 8/10) ∧
      (_get_confidence_level 1 = "Low" ↔ (1:ℚ) < 6/10)) :=
  ⟨by decide, by decide, C7_confidence_levels 1 (by decide) (by decide)⟩

/-- C5: a feature appears in the impact map exactly when some item of the
attribution map carries it with absolute value strictly above 0.1, and the
attached text is Increases for positive attributions and Decreases
otherwise, carrying the absolute value rounded to 3 decimal places;
items at or below the threshold contribute nothing. -/
theorem C5_feature_impact_membership (m : List (String × ℚ)) (f : String)
    (t : ImpactText) :
    ((f, t) ∈ _get_feature_impact m ↔
      ∃ v, (f, v) ∈ m ∧ 1/10 < |v| ∧
        t = if v > 0 then ImpactText.increases (round3 |v|)
            else ImpactText.decreases (round3 |v|)) ∧
    ((∃ u, (f, u) ∈ _get_feature_impact m) ↔
      ∃ v, (f, v) ∈ m ∧ 1/10 < |v|) := by
  have key : ∀ t' : ImpactText, (f, t') ∈ _get_feature_impact m ↔
      ∃ v, (f, v) ∈ m ∧ 1/10 < |v| ∧
        t' = if v > 0 then ImpactText.increases (round3 |v|)
             else ImpactText.decreases (round3 |v|) := by
    intro t'
    rw [_get_feature_impact, List.mem_filterMap]
    constructor
    · rintro ⟨a, ham, hg⟩
      by_cases hc : |a.2| > 1/10
      · rw [if_pos hc] at hg
        simp only [Option.some.injEq, Prod.mk.injEq] at hg
        obtain ⟨rfl, rfl⟩ := hg
        exact ⟨a.2, by rwa [Prod.mk.eta], hc, rfl⟩
      · rw [if_neg hc] at hg
        cases hg
    · rintro ⟨v, hvm, hv, ht⟩
      refine ⟨(f, v), hvm, ?_⟩
      show (if |v| > 1/10 then _ else none) = _
      rw [if_pos hv, ht]

  refine ⟨key t, ?_, ?_⟩
  · rintro ⟨u, hu⟩
    obtain ⟨v, hvm, hv, _⟩ := (key u).mp hu
    exact ⟨v, hvm, hv⟩
  · rintro ⟨v, hvm, hv⟩
    exact ⟨_, (key _).mpr ⟨v, hvm, hv, rfl⟩⟩

/-- Value equation for one step of the improvement loop: an improvement is
produced exactly when the attribution is strictly below -0.05 and the
feature is one of cibil_score (with current below 750), loan_amount (with
current above three times income) or income_annum, with the corresponding
delta formula. -/
theorem improvementFor_eq_some (data : Data) (f : String) (s d : ℚ) :
    improvementFor data f s = some d ↔
      s < -(1/20) ∧
        ((f = "cibil_score" ∧ data "cibil_score" < 750 ∧
            d = |s| * ((750 - data "cibil_score") / 900)) ∨
          (f = "loan_amount" ∧
            data "loan_amount" > data "income_annum" * 3 ∧
            d = |s| * ((data "loan_amount" - data "income_annum" * 3) /
              data "loan_amount")) ∨
          (f = "income_annum" ∧ d = |s| * (2/10))) := by
  unfold improvementFor
  split_ifs with h1 h2 h3 h4 h5 h6 <;> simp_all <;> tauto

/-- C3: for every rejected-path improvement computation, a pair (f, d)
belongs to potential_improvements exactly when the full attribution map
carries f with attribution strictly below -0.05 and f is cibil_score
(current below 750, delta = |attribution| (750 - current) / 900),
loan_amount (current above 3 times income, delta =
|attribution| (current - 3 income) / current) or income_annum (delta =
|attribution| 0.2); the documented instance cibil_score current 600 with
attribution -0.3 yields delta exactly 0.05. -/
theorem C3_potential_improvements (data : Data) (m : List (String × ℚ))
    (f : String) (d : ℚ) :
    ((f, d) ∈ _calculate_potential_improvements data m ↔
      ∃ s, (f, s) ∈ m ∧ s < -(1/20) ∧
        ((f = "cibil_score" ∧ data "cibil_score" < 750 ∧
            d = |s| * ((750 - data "cibil_score") / 900)) ∨
          (f = "loan_amount" ∧
            data "loan_amount" > data "income_annum" * 3 ∧
            d = |s| * ((data "loan_amount" - data "income_annum" * 3) /
              data "loan_amount")) ∨
          (f = "income_annum" ∧ d = |s| * (2/10)))) ∧
    improvementFor cibil600Data "cibil_score" (-(3/10)) = some (1/20) := by
  constructor
  · rw [_calculate_potential_improvements, List.mem_filterMap]
    constructor
    · rintro ⟨a, ham, hg⟩
      rw [Option.map_eq_some'] at hg
      obtain ⟨x, hx, heq⟩ := hg
      simp only [Prod.mk.injEq] at heq
      obtain ⟨rfl, rfl⟩ := heq
      obtain ⟨hs, hdisj⟩ := (improvementFor_eq_some data a.1 a.2 x).mp hx
      exact ⟨a.2, by rwa [Prod.mk.eta], hs, hdisj⟩
    · rintro ⟨s, hsm, hs, hdisj⟩
      refine ⟨(f, s), hsm, ?_⟩
      rw [show ((f, s).1 : String) = f from rfl, show ((f, s).2 : ℚ) = s from rfl,
        (improvementFor_eq_some data f s d).mpr ⟨hs, hdisj⟩]
      rfl
  · unfold improvementFor
    rw [if_pos (by norm_num : (-(3/10) : ℚ) < -(1/20)), if_pos rfl,
      if_pos (show cibil600Data "cibil_score" < 750 by norm_num [cibil600Data])]
    simp only [cibil600Data, Option.some.injEq]
    rw [abs_of_neg (by norm_num : (-(3/10) : ℚ) < 0)]
    norm_num

/-- C8: preprocessing fails exactly when one of the 11 required features is
absent from the input columns; in that case the result does not depend on
the classifier oracle (it is never consulted), and when every required
feature is present preprocessing succeeds with the reordered row. -/
theorem C8_missing_feature_check (cols : List String) (data : Data)
    (oracle oracle2 : Data → Label × ℚ) :
    ((∃ c ∈ feature_names, c ∉ cols) ↔
      ∃ e, preprocess_data cols data = Except.error e) ∧
    ((∃ c ∈ feature_names, c ∉ cols) →
      predict_single oracle cols data = predict_single oracle2 cols data) ∧
    ((∀ c ∈ feature_names, c ∈ cols) →
      preprocess_data cols data =
        Except.ok (feature_names.map (fun f => (f, data f)))) := by
  have hkey : (∃ c ∈ feature_names, c ∉ cols) ↔
      (feature_names.find? (fun c => !(cols.contains c))).isSome = true := by
    rw [List.find?_isSome]
    constructor
    · rintro ⟨c, hc, hnc⟩
      exact ⟨c, hc, by simpa using hnc⟩
    · rintro ⟨c, hc, hnc⟩
      exact ⟨c, hc, by simpa using hnc⟩
  refine ⟨?_, ?_, ?_⟩
  · rw [hkey]
    unfold preprocess_data checkRequiredColumns
    cases hf : feature_names.find? (fun c => !(cols.contains c)) with
    | none => simp
    | some c => simp
  · intro hmiss
    rw [hkey] at hmiss
    unfold predict_single preprocess_data checkRequiredColumns
    cases hf : feature_names.find? (fun c => !(cols.contains c)) with
    | none => rw [hf] at hmiss; simp at hmiss
    | some c => simp
  · intro hall
    have hf : feature_names.find? (fun c => !(cols.contains c)) = none := by
      rw [List.find?_eq_none]
      intro c hc
      simpa using hall c hc
    unfold preprocess_data checkRequiredColumns
    rw [hf]

/-- Witness for C8: with no input columns the first required feature is
missing, so the two oracle variants agree; with all columns present
preprocessing succeeds. -/
theorem C8_witness :
    ("no_of_dependents" ∈ feature_names ∧ "no_of_dependents" ∉ ([] : List String)) ∧
    predict_single approveOracle [] zeroData =
      predict_single rejectOracle [] zeroData ∧
    preprocess_data feature_names zeroData =
      Except.ok (feature_names.map (fun f => (f, zeroData f))) :=
  ⟨⟨by decide, by decide⟩,
    (C8_missing_feature_check [] zeroData approveOracle rejectOracle).2.1
      ⟨"no_of_dependents", by decide, by decide⟩,
    (C8_missing_feature_check feature_names zeroData approveOracle
        rejectOracle).2.2
      (fun c hc => hc)⟩

/-- Pointwise agreement of the source's if/elif rule ladder with the
uniform evaluation of the spec's declarative rule table. -/
theorem ruleFor_eq_table (data : Data) (f : String) (s : ℚ) :
    ruleFor data f s =
      (match specRuleTable.lookup f with
       | none => none
       | some rule =>
         if rule.trigger data then
           some { priority := rule.priority
                  feature := f
                  current_value := some (data f)
                  recommendation := rule.template data
                  impact := some |s|
                  actionable := rule.actionable }
         else none) := by
  by_cases h1 : f = "cibil_score"
  · subst h1
    simp [ruleFor, specRuleTable, List.lookup]
  by_cases h2 : f = "income_annum"
  · subst h2
    simp [ruleFor, specRuleTable, List.lookup]
  by_cases h3 : f = "loan_amount"
  · subst h3
    simp [ruleFor, specRuleTable, List.lookup]
  by_cases h4 : f = "loan_term"
  · subst h4
    simp [ruleFor, specRuleTable, List.lookup]
  by_cases h5 : f = "bank_asset_value"
  · subst h5
    simp [ruleFor, specRuleTable, List.lookup]
  by_cases h6 : f = "residential_assets_value"
  · subst h6
    simp [ruleFor, specRuleTable, List.lookup]
  · rw [specRuleTable, List.lookup, beq_eq_false_iff_ne.mpr h1,
      List.lookup, beq_eq_false_iff_ne.mpr h2,
      List.lookup, beq_eq_false_iff_ne.mpr h3,
      List.lookup, beq_eq_false_iff_ne.mpr h4,
      List.lookup, beq_eq_false_iff_ne.mpr h5,
      List.lookup, beq_eq_false_iff_ne.mpr h6]
    simp [ruleFor, h1, h2, h3, h4, h5, h6]

/-- C2: on the rejected path the recommendations list is exactly the
uniform evaluation of the spec's declarative rule table over the negative
entries of the top-5 ranked list taken most negative first: the selected
entries are stably sorted ascending by attribution, every selected entry
is negative, and the selection is a permutation of the negative entries
of the top list. -/
theorem C2_rejected_rule_table (data : Data)
    (shap_values : List (String × ℚ)) (top_features : List RankedFeature)
    (h : top_features.length ≤ 5) :
    _generate_specific_recommendations data shap_values top_features =
      recommendationsSpec data top_features ∧
    List.Pairwise shapAscRel (sortedNegatives top_features) ∧
    (∀ fs ∈ sortedNegatives top_features, fs.2 < 0) ∧
    (sortedNegatives top_features).Perm
      (top_features.filterMap (fun f =>
        if f.shap_value < 0 then some (f.feature, f.shap_value) else none)) := by
  have hlen : (sortedNegatives top_features).length ≤ 5 := by
    rw [sortedNegatives, List.length_insertionSort]
    exact le_trans (List.length_filterMap_le _ _) h
  refine ⟨?_, List.sorted_insertionSort shapAscRel _, ?_, ?_⟩
  · rw [_generate_specific_recommendations, recommendationsSpec,
      List.take_of_length_le hlen]
    exact List.filterMap_congr (fun fs _ => ruleFor_eq_table data fs.1 fs.2)
  · intro fs hfs
    rw [sortedNegatives, List.mem_insertionSort, List.mem_filterMap] at hfs
    obtain ⟨f, _, hneg⟩ := hfs
    by_cases hc : f.shap_value < 0
    · rw [if_pos hc] at hneg
      obtain rfl := Option.some.inj hneg
      exact hc
    · rw [if_neg hc] at hneg
      cases hneg
  · exact List.perm_insertionSort shapAscRel _

/-- Witness for C2 at a single-entry top list (cibil_score, attribution
-1) over data with every feature at 500. -/
theorem C2_witness :
    cibilTop.length ≤ 5 ∧
    (_generate_specific_recommendations cibil500Data [] cibilTop =
        recommendationsSpec cibil500Data cibilTop ∧
      List.Pairwise shapAscRel (sortedNegatives cibilTop) ∧
      (∀ fs ∈ sortedNegatives cibilTop, fs.2 < 0) ∧
      (sortedNegatives cibilTop).Perm
        (cibilTop.filterMap (fun f =>
          if f.shap_value < 0 then some (f.feature, f.shap_value) else none))) :=
  ⟨by decide, C2_rejected_rule_table cibil500Data [] cibilTop (by decide)⟩

/-- Field contract of one step of the rule ladder: every emitted
recommendation carries the triggering feature, its current value, and
impact = absolute attribution. -/
theorem ruleFor_fields (data : Data) (f : String) (s : ℚ)
    (r : Recommendation) (h : ruleFor data f s = some r) :
    r.feature = f ∧ r.current_value = some (data f) ∧
      r.impact = some |s| := by
  unfold ruleFor at h
  split_ifs at h <;> simp_all
  all_goals (obtain rfl := h.symm; exact ⟨rfl, rfl, rfl⟩)

/-- C9 counterexample: the congratulatory recommendation returned for an
Approved prediction carries neither a current_value nor an impact field,
so not every recommendation record carries all six fields. -/
theorem C9_counterexample :
    ¬ (∀ r ∈ (generate_recommendations zeroData
          approvedExplanation).recommendations,
        r.current_value.isSome = true ∧ r.impact.isSome = true) := by
  intro hall
  have hmem : congratsRecommendation ∈
      (generate_recommendations zeroData approvedExplanation).recommendations := by
    rw [show (generate_recommendations zeroData
        approvedExplanation).recommendations = [congratsRecommendation] from rfl]
    exact List.mem_singleton.mpr rfl
  have hfields := hall congratsRecommendation hmem
  simp [congratsRecommendation] at hfields

/-- C9 (amended): every recommendation of the rejected path carries all
six fields, with current_value the triggering feature's current value and
impact the absolute attribution of a negative top-list entry for that
feature; the Approved-path congratulatory record carries only priority,
feature, recommendation and actionable (current_value and impact are
absent). -/
theorem C9_recommendation_fields (data : Data)
    (shap_values : List (String × ℚ)) (tf : List RankedFeature) :
    (∀ r ∈ _generate_specific_recommendations data shap_values tf,
      r.current_value = some (data r.feature) ∧
      ∃ f ∈ tf, f.feature = r.feature ∧ f.shap_value < 0 ∧
        r.impact = some |f.shap_value|) ∧
    congratsRecommendation.current_value = none ∧
    congratsRecommendation.impact = none ∧
    congratsRecommendation.priority = "High" ∧
    congratsRecommendation.feature = "loan_approved" ∧
    congratsRecommendation.recommendation = RecText.congrats ∧
    congratsRecommendation.actionable = true := by
  refine ⟨?_, rfl, rfl, rfl, rfl, rfl, rfl⟩
  intro r hr
  rw [_generate_specific_recommendations, List.mem_filterMap] at hr
  obtain ⟨fs, hfs5, hrule⟩ := hr
  have hfs : fs ∈ sortedNegatives tf :=
    (List.take_sublist 5 _).subset hfs5
  rw [sortedNegatives, List.mem_insertionSort, List.mem_filterMap] at hfs
  obtain ⟨f, hf, hneg⟩ := hfs
  obtain ⟨hfeat, hcur, himp⟩ := ruleFor_fields data fs.1 fs.2 r hrule
  by_cases hc : f.shap_value < 0
  · rw [if_pos hc] at hneg
    obtain rfl := Option.some.inj hneg
    refine ⟨by rw [hfeat]; exact hcur, f, hf, ?_, hc, ?_⟩
    · rw [hfeat]
    · exact himp
  · rw [if_neg hc] at hneg
    cases hneg

/-- Witness for C9 at the concrete cibil_score scenario. -/
theorem C9_witness :
    cibilRec ∈ _generate_specific_recommendations cibil500Data [] cibilTop ∧
    (cibilRec.current_value = some (cibil500Data cibilRec.feature) ∧
      ∃ f ∈ cibilTop, f.feature = cibilRec.feature ∧ f.shap_value < 0 ∧
        cibilRec.impact = some |f.shap_value|) :=
  ⟨by decide,
    (C9_recommendation_fields cibil500Data [] cibilTop).1 cibilRec (by decide)⟩

/-- C10: under the validator's guarantee that income is nonnegative, every
potential-improvement entry is strictly positive and keyed by one of
cibil_score, loan_amount or income_annum. -/
theorem C10_improvements_positive (data : Data) (m : List (String × ℚ))
    (hinc : 0 ≤ data "income_annum") :
    ∀ p ∈ _calculate_potential_improvements data m,
      0 < p.2 ∧
        p.1 ∈ (["cibil_score", "loan_amount", "income_annum"] : List String) := by
  intro p hp
  rw [_calculate_potential_improvements, List.mem_filterMap] at hp
  obtain ⟨a, _, hg⟩ := hp
  rw [Option.map_eq_some'] at hg
  obtain ⟨x, hx, heq⟩ := hg
  obtain ⟨hs, hdisj⟩ := (improvementFor_eq_some data a.1 a.2 x).mp hx
  have habs : 0 < |a.2| :=
    abs_pos.mpr (ne_of_lt (lt_trans hs (by norm_num)))
  subst heq
  rcases hdisj with ⟨hf, hcur, hd⟩ | ⟨hf, hcur, hd⟩ | ⟨hf, hd⟩
  · refine ⟨?_, by rw [show ((a.1, x).1) = a.1 from rfl, hf]; decide⟩
    show 0 < x
    rw [hd]
    exact mul_pos habs (div_pos (by linarith) (by norm_num))
  · have hloan : 0 < data "loan_amount" :=
      lt_of_le_of_lt (by positivity) hcur
    refine ⟨?_, by rw [show ((a.1, x).1) = a.1 from rfl, hf]; decide⟩
    show 0 < x
    rw [hd]
    exact mul_pos habs (div_pos (by linarith) hloan)
  · refine ⟨?_, by rw [show ((a.1, x).1) = a.1 from rfl, hf]; decide⟩
    show 0 < x
    rw [hd]
    exact mul_pos habs (by norm_num)

/-- Witness for C10 at the all-zero valuation with a single negative
income_annum attribution. -/
theorem C10_witness :
    (0:ℚ) ≤ zeroData "income_annum" ∧
    ∀ p ∈ _calculate_potential_improvements zeroData incomeNegShap,
      0 < p.2 ∧
        p.1 ∈ (["cibil_score", "loan_amount", "income_annum"] : List String) :=
  ⟨by decide, C10_improvements_positive zeroData incomeNegShap (by decide)⟩

end LoanSense
